import Mathlib

set_option maxRecDepth 8000

/- Shallow embedding of the dynamic-sheet-site repository: the data-ingestion
   pipeline of src/services/googleSheetService.ts and the view/state logic of
   src/components/IPDashboard.tsx.  JS strings are modelled as Lean Strings
   (lists of characters); JS numbers that the code produces with parseInt are
   modelled as Int; the effectful fetch is modelled by passing the per-strategy
   outcomes in as data. -/

/-- Whitespace test used to model what JS String.prototype.trim removes. -/
def wsChar (c : Char) : Bool := c.isWhitespace

/-- Model of JS String.prototype.trim on a character list: drop leading and
trailing whitespace. -/
def trimChars (l : List Char) : List Char :=
  ((l.dropWhile wsChar).reverse.dropWhile wsChar).reverse

/-- Loop of parseCSVLine (googleSheetService.ts lines 84-104): walk the
characters of the line with an accumulator `current` and an `inQuotes` flag; a
quote character toggles the flag and is dropped, a comma outside quotes pushes
the trimmed accumulator as a field, any other character is appended to the
accumulator; at the end the trimmed accumulator is pushed as the last field. -/
def parseLoop : List Char → List Char → Bool → List (List Char)
  | [], current, _ => [trimChars current]
  | c :: rest, current, inQuotes =>
    if c = '"' then
      parseLoop rest current (!inQuotes)
    else if c = ',' ∧ inQuotes = false then
      trimChars current :: parseLoop rest [] inQuotes
    else
      parseLoop rest (current ++ [c]) inQuotes

/-- Model of parseCSVLine (googleSheetService.ts lines 84-104). -/
def parseCSVLine (line : List Char) : List (List Char) :=
  parseLoop line [] false

/-- String-level wrapper of parseCSVLine. -/
def parseCSVLineStr (line : String) : List String :=
  (parseCSVLine line.data).map (fun cs => String.mk cs)

/-- Model of JS String.prototype.split with a one-character separator: the
separator is removed and the segments between occurrences are returned (an
empty input gives one empty segment, as in JS). -/
def splitOnChar (sep : Char) : List Char → List (List Char)
  | [] => [[]]
  | c :: t =>
    match splitOnChar sep t with
    | [] => [[]]
    | h :: r => if c = sep then [] :: h :: r else (c :: h) :: r

/-- Model of googleSheetService.ts line 39: split the blob on newline and keep
only the lines whose trimmed text is nonempty (JS truthiness of line.trim()). -/
def linesOf (s : String) : List String :=
  ((splitOnChar '\n' s.data).map (fun cs => String.mk cs)).filter
    (fun l => !(trimChars l.data).isEmpty)

/-- Model of JS String.prototype.toLowerCase (ASCII case folding). -/
def jsToLower (s : String) : String := String.mk (s.data.map Char.toLower)

/-- Prefix test for character lists, used to model substring search. -/
def startsWithSub : List Char → List Char → Bool
  | _, [] => true
  | [], _ :: _ => false
  | h :: t, p :: ps => h = p && startsWithSub t ps

/-- Substring test for character lists: some suffix of the haystack starts
with the pattern. -/
def containsSub : List Char → List Char → Bool
  | [], pat => startsWithSub [] pat
  | c :: t, pat => startsWithSub (c :: t) pat || containsSub t pat

/-- Model of JS String.prototype.includes. -/
def containsStr (s pat : String) : Bool := containsSub s.data pat.data

/-- Numeric value of a list of decimal digits, most significant first. -/
def decVal (ds : List Char) : Nat := ds.foldl (fun a c => 10 * a + (c.toNat - 48)) 0

/-- Value of one hexadecimal digit character. -/
def hexDigVal (c : Char) : Nat :=
  if c.isDigit then c.toNat - 48
  else if 'a' ≤ c ∧ c ≤ 'f' then c.toNat - 87
  else c.toNat - 55

/-- Hexadecimal digit test. -/
def isHexDig (c : Char) : Bool :=
  c.isDigit || ('a' ≤ c && c ≤ 'f') || ('A' ≤ c && c ≤ 'F')

/-- Numeric value of a list of hexadecimal digits, most significant first. -/
def hexVal (ds : List Char) : Nat := ds.foldl (fun a c => 16 * a + hexDigVal c) 0

/-- Model of the ECMAScript parseInt builtin as invoked with a single argument
in googleSheetService.ts: skip leading whitespace, read an optional sign, then
either a 0x/0X-prefixed run of hexadecimal digits or a run of decimal digits;
trailing garbage is ignored; `none` models the NaN result when no digit is
present. -/
def parseIntJS (s : String) : Option Int :=
  let cs := s.data.dropWhile wsChar
  let signed : Int × List Char :=
    match cs with
    | '-' :: r => (-1, r)
    | '+' :: r => (1, r)
    | _ => (1, cs)
  match signed.2 with
  | '0' :: x :: r =>
    if x = 'x' ∨ x = 'X' then
      let ds := r.takeWhile isHexDig
      if ds.isEmpty then none else some (signed.1 * (hexVal ds : Int))
    else
      some (signed.1 * (decVal (signed.2.takeWhile Char.isDigit) : Int))
  | _ =>
    let ds := signed.2.takeWhile Char.isDigit
    if ds.isEmpty then none else some (signed.1 * (decVal ds : Int))

/-- Model of the JS idiom `parseInt(x) || 0`: NaN (and an absent value) falls
back to 0. -/
def jsOrZero : Option Int → Int
  | none => 0
  | some n => n

/-- Record type of src/types/ipData.ts. -/
structure IPData where
  IP : String
  Country : String
  City : String
  ISP : String
  Domain : String
  UsageType : String
  ASN : String
  AbuseConfidenceScore : Int
  TotalReports : Int
  LastReportedAt : String
  JenisAktivitas : String
  Count : Int
  Action : String
deriving DecidableEq

/-- Model of the JS idiom `x || d` on strings: an empty (or absent) value
falls back to the default. -/
def strOr (s d : String) : String := if s = "" then d else s

/-- Record construction of googleSheetService.ts lines 51-65: positional
extraction from the parsed field list, `||`-defaulting exactly as written in
the source (index 7 is skipped; an index past the end of the list behaves like
the absent/undefined value, i.e. like the empty string under `||`). -/
def mkItem (values : List String) : IPData :=
  { IP := strOr (values.getD 0 "") ""
    Country := strOr (values.getD 1 "") ""
    ISP := strOr (values.getD 2 "") ""
    Domain := strOr (values.getD 3 "") ""
    AbuseConfidenceScore := jsOrZero (parseIntJS (values.getD 4 ""))
    TotalReports := jsOrZero (parseIntJS (values.getD 5 ""))
    LastReportedAt := strOr (values.getD 6 "") ""
    JenisAktivitas := strOr (values.getD 8 "") ""
    Count := jsOrZero (parseIntJS (values.getD 9 ""))
    Action := strOr (values.getD 10 "") ""
    UsageType := strOr (values.getD 11 "") "-"
    ASN := strOr (values.getD 12 "") "-"
    City := strOr (values.getD 13 "") "-" }

/-- One data line of the parse loop (googleSheetService.ts lines 46-68): a
line yields a record exactly when it parses to at least 11 fields, and is
silently skipped otherwise. -/
def lineToRecord (l : String) : Option IPData :=
  if 11 ≤ (parseCSVLineStr l).length then some (mkItem (parseCSVLineStr l)) else none

/-- Records produced from a raw CSV blob (googleSheetService.ts lines 39-68):
split into non-blank lines, skip the first retained line (header), and build a
record from every remaining line that has at least 11 parsed fields. -/
def parseRecords (csvText : String) : List IPData :=
  ((linesOf csvText).drop 1).filterMap lineToRecord

/-- Outcome of one transport strategy in a fetch cycle: either the fetch call
itself rejected (network error), or a response arrived with a status code and
a body.  fetchIPData is effectful in the source, so the per-strategy outcomes
are passed to the model as data, one entry per strategy in the fixed order of
PROXY_URLS; this also encodes that each strategy is attempted at most once. -/
inductive StrategyRes
  | netError (msg : String)
  | response (status : Nat) (body : String)
deriving DecidableEq

/-- Body of one loop iteration of fetchIPData (googleSheetService.ts lines
15-77): a non-2xx status throws, a body shorter than 10 characters throws, a
blob with fewer than 2 non-blank lines throws, and otherwise the parsed
records are returned. -/
def attempt : StrategyRes → Except String (List IPData)
  | .netError msg => .error msg
  | .response status body =>
    if ¬ (200 ≤ status ∧ status < 300) then
      .error ("HTTP error! status: " ++ toString status)
    else if body.length < 10 then
      .error "Empty or invalid response"
    else if (linesOf body).length < 2 then
      .error "Not enough data lines"
    else
      .ok (parseRecords body)

/-- Strategy loop of fetchIPData with the `lastError` accumulator
(googleSheetService.ts lines 13-81): return on the first strategy whose
attempt succeeds, remember each failure's error, and after the loop throw the
last error, or the generic fallback if none was ever set. -/
def fetchLoop : List StrategyRes → Option String → Except String (List IPData)
  | [], lastError =>
    .error (match lastError with
      | none => "Failed to fetch data"
      | some e => e)
  | r :: rest, _ =>
    match attempt r with
    | .ok d => .ok d
    | .error e => fetchLoop rest (some e)

/-- Model of fetchIPData (googleSheetService.ts lines 12-82), applied to the
list of per-strategy outcomes for one fetch cycle. -/
def fetchIPData (rs : List StrategyRes) : Except String (List IPData) :=
  fetchLoop rs none

/-- Aggregate counts of IPDashboard.tsx lines 210-215 (the `stats` object). -/
structure Stats where
  total : Nat
  blocked : Nat
  alerted : Nat
  highRisk : Nat
deriving DecidableEq

/-- Model of the `stats` object (IPDashboard.tsx lines 210-215), computed from
the unfiltered `data` state. -/
def stats (data : List IPData) : Stats :=
  { total := data.length
    blocked := (data.filter (fun d => jsToLower d.Action == "blocked")).length
    alerted := (data.filter (fun d => jsToLower d.Action == "alerted")).length
    highRisk := (data.filter (fun d => decide (75 ≤ d.AbuseConfidenceScore))).length }

/-- Model of `highRiskIPs` (IPDashboard.tsx lines 30-33): the export-eligible
records, those whose abuse confidence score strictly exceeds 75. -/
def highRiskIPs (data : List IPData) : List IPData :=
  data.filter (fun d => decide (75 < d.AbuseConfidenceScore))

/-- Category filter state of IPDashboard.tsx line 22. -/
inductive FilterCat
  | all
  | blocked
  | alerted
deriving DecidableEq

/-- String value of the category filter state as compared against the
lowercased action (IPDashboard.tsx lines 203-207). -/
def catToken : FilterCat → String
  | .all => "all"
  | .blocked => "blocked"
  | .alerted => "alerted"

/-- Search predicate of the filter effect (IPDashboard.tsx lines 191-197): the
search text occurs in the IP (case-sensitively), or case-insensitively in the
ISP or the domain. -/
def searchMatch (q : String) (item : IPData) : Bool :=
  containsStr item.IP q
    || containsStr (jsToLower item.ISP) (jsToLower q)
    || containsStr (jsToLower item.Domain) (jsToLower q)

/-- Filter effect of IPDashboard.tsx lines 187-208: apply the search filter
when the search text is nonempty (JS truthiness), then the category filter
when the category is not "all". -/
def applyFilters (data : List IPData) (q : String) (f : FilterCat) : List IPData :=
  let result := if q = "" then data else data.filter (fun item => searchMatch q item)
  if f = FilterCat.all then result
  else result.filter (fun item => jsToLower item.Action == catToken f)

/-- View Projector: the filtered record list published as `filteredData`
together with the aggregates, as a pure function of the snapshot and the
filter state. -/
def project (data : List IPData) (q : String) (f : FilterCat) : List IPData × Stats :=
  (applyFilters data q f, stats data)

/-- Controller state of IPDashboard.tsx lines 17-27 that loadData touches:
the published snapshot (`data` and `filteredData`), the error message, the
last-updated timestamp (modelled as an abstract Nat instant) and the loading
flag. -/
structure DashState where
  data : List IPData
  filteredData : List IPData
  error : Option String
  lastUpdated : Option Nat
  loading : Bool
deriving DecidableEq

/-- Model of loadData (IPDashboard.tsx lines 156-169): set loading when asked,
clear the error, then either publish the fetched snapshot and stamp the time,
or on a fetch failure set the fixed user-facing message; finally clear the
loading flag when it was set.  The outcome of the effectful fetch-and-parse
cycle is passed in as data. -/
def loadData (s : DashState) (showLoading : Bool) (fetchResult : Except String (List IPData))
    (now : Nat) : DashState :=
  let s1 : DashState :=
    { s with loading := if showLoading then true else s.loading, error := none }
  let s2 : DashState :=
    match fetchResult with
    | .ok result => { s1 with data := result, filteredData := result, lastUpdated := some now }
    | .error _ => { s1 with error := some "Failed to load data from Google Sheet" }
  { s2 with loading := if showLoading then false else s2.loading }

/-- Concrete record used to instantiate universally quantified statements. -/
def sampleRec : IPData :=
  mkItem ["1.2.3.4", "ID", "isp", "dom", "80", "5", "2024", "x", "scan", "3", "blocked"]

/-- Concrete record whose abuse confidence score is exactly 75. -/
def rec75 : IPData :=
  { IP := "9.9.9.9", Country := "ID", City := "-", ISP := "isp", Domain := "dom"
    UsageType := "-", ASN := "-", AbuseConfidenceScore := 75, TotalReports := 1
    LastReportedAt := "2024", JenisAktivitas := "scan", Count := 1, Action := "blocked" }

/-- Concrete record whose abuse confidence score is exactly 76. -/
def rec76 : IPData :=
  { IP := "8.8.8.8", Country := "ID", City := "-", ISP := "isp", Domain := "dom"
    UsageType := "-", ASN := "-", AbuseConfidenceScore := 76, TotalReports := 1
    LastReportedAt := "2024", JenisAktivitas := "scan", Count := 1, Action := "alerted" }

/-- Dropping a satisfied prefix twice is the same as dropping it once. -/
theorem dropWhile_dropWhile {α : Type} (p : α → Bool) (l : List α) :
    (l.dropWhile p).dropWhile p = l.dropWhile p := by
  induction l with
  | nil => rfl
  | cons c t ih =>
    by_cases h : p c = true
    · simp only [List.dropWhile_cons, h, if_true]
      exact ih
    · simp [List.dropWhile_cons, h]

/-- The head of a dropWhile result does not satisfy the predicate. -/
theorem dropWhile_head_false {α : Type} (p : α → Bool) (l : List α) (a : α) (rest : List α)
    (h : l.dropWhile p = a :: rest) : p a = false := by
  induction l with
  | nil => simp [List.dropWhile] at h
  | cons c t ih =>
    rw [List.dropWhile_cons] at h
    by_cases hc : p c = true
    · rw [if_pos hc] at h
      exact ih h
    · rw [if_neg hc] at h
      cases h
      simpa using hc

/-- A list whose head does not satisfy the predicate is unchanged by
dropWhile. -/
theorem dropWhile_eq_self {α : Type} (p : α → Bool) (l : List α)
    (h : ∀ a, l.head? = some a → p a = false) : l.dropWhile p = l := by
  cases l with
  | nil => rfl
  | cons c t =>
    have hc := h c rfl
    simp [List.dropWhile_cons, hc]

/-- Trimming is idempotent. -/
theorem trimChars_idem (l : List Char) : trimChars (trimChars l) = trimChars l := by
  unfold trimChars
  set v := l.dropWhile wsChar with hv
  set w := v.reverse.dropWhile wsChar with hw
  have h1 : w.reverse.dropWhile wsChar = w.reverse := by
    apply dropWhile_eq_self
    intro a ha
    rw [List.head?_reverse] at ha
    obtain ⟨u, hu⟩ := List.dropWhile_suffix (l := v.reverse) wsChar
    have hwne : w ≠ [] := by
      intro h0
      rw [h0] at ha
      simp at ha
    have h2 : (u ++ w).getLast? = w.getLast? := List.getLast?_append_of_ne_nil u hwne
    rw [hu, List.getLast?_reverse, ha] at h2
    cases hvh : v with
    | nil =>
      rw [hvh] at h2
      simp at h2
    | cons c tv =>
      have hca : c = a := by
        rw [hvh] at h2
        simpa using h2
      subst hca
      exact dropWhile_head_false wsChar l c tv (hv ▸ hvh)
  rw [h1, List.reverse_reverse, hw, dropWhile_dropWhile]

/-- Every character of a trimmed list comes from the original list. -/
theorem mem_trimChars {c : Char} {l : List Char} (h : c ∈ trimChars l) : c ∈ l := by
  unfold trimChars at h
  rw [List.mem_reverse] at h
  have h2 := (List.dropWhile_sublist wsChar).subset h
  rw [List.mem_reverse] at h2
  exact (List.dropWhile_sublist wsChar).subset h2

/-- Unfolding equation of parseLoop on the empty line. -/
theorem parseLoop_nil (cur : List Char) (q : Bool) :
    parseLoop [] cur q = [trimChars cur] := rfl

/-- Unfolding equation of parseLoop on a nonempty line. -/
theorem parseLoop_cons (c : Char) (rest cur : List Char) (q : Bool) :
    parseLoop (c :: rest) cur q =
      if c = '"' then parseLoop rest cur (!q)
      else if c = ',' ∧ q = false then trimChars cur :: parseLoop rest [] q
      else parseLoop rest (cur ++ [c]) q := rfl

/-- parseLoop always produces at least one field. -/
theorem parseLoop_length (cs : List Char) :
    ∀ cur q, 1 ≤ (parseLoop cs cur q).length := by
  induction cs with
  | nil =>
    intro cur q
    simp [parseLoop_nil]
  | cons c t ih =>
    intro cur q
    rw [parseLoop_cons]
    by_cases h1 : c = '"'
    · rw [if_pos h1]
      exact ih cur (!q)
    · rw [if_neg h1]
      by_cases h2 : c = ',' ∧ q = false
      · rw [if_pos h2]
        simp
      · rw [if_neg h2]
        exact ih (cur ++ [c]) q

/-- No field produced by parseLoop contains a quote character, provided the
accumulator contains none. -/
theorem parseLoop_no_quote (f : List Char) (cs : List Char) :
    ∀ cur q, ¬ '"' ∈ cur → f ∈ parseLoop cs cur q → ¬ '"' ∈ f := by
  induction cs with
  | nil =>
    intro cur q hcur hf
    rw [parseLoop_nil, List.mem_singleton] at hf
    subst hf
    intro hmem
    exact hcur (mem_trimChars hmem)
  | cons c t ih =>
    intro cur q hcur hf
    rw [parseLoop_cons] at hf
    by_cases h1 : c = '"'
    · rw [if_pos h1] at hf
      exact ih cur (!q) hcur hf
    · rw [if_neg h1] at hf
      by_cases h2 : c = ',' ∧ q = false
      · rw [if_pos h2] at hf
        rcases List.mem_cons.mp hf with h | h
        · subst h
          intro hmem
          exact hcur (mem_trimChars hmem)
        · exact ih [] q (by simp) h
      · rw [if_neg h2] at hf
        refine ih (cur ++ [c]) q ?_ hf
        intro hmem
        rcases List.mem_append.mp hmem with h | h
        · exact hcur h
        · rw [List.mem_singleton] at h
          exact h1 h.symm

/-- Every field produced by parseLoop is already trimmed. -/
theorem parseLoop_trimmed (f : List Char) (cs : List Char) :
    ∀ cur q, f ∈ parseLoop cs cur q → trimChars f = f := by
  induction cs with
  | nil =>
    intro cur q hf
    rw [parseLoop_nil, List.mem_singleton] at hf
    subst hf
    exact trimChars_idem cur
  | cons c t ih =>
    intro cur q hf
    rw [parseLoop_cons] at hf
    by_cases h1 : c = '"'
    · rw [if_pos h1] at hf
      exact ih cur (!q) hf
    · rw [if_neg h1] at hf
      by_cases h2 : c = ',' ∧ q = false
      · rw [if_pos h2] at hf
        rcases List.mem_cons.mp hf with h | h
        · subst h
          exact trimChars_idem cur
        · exact ih [] q h
      · rw [if_neg h2] at hf
        exact ih (cur ++ [c]) q hf

/-- While the quote flag is set, a quote-free run of characters (commas
included) is wholly appended to the accumulator. -/
theorem parseLoop_inQuotes (xs : List Char) :
    ∀ rest cur, ¬ '"' ∈ xs →
      parseLoop (xs ++ rest) cur true = parseLoop rest (cur ++ xs) true := by
  induction xs with
  | nil =>
    intro rest cur _
    simp
  | cons c t ih =>
    intro rest cur hq
    have hc : ¬ c = '"' := by
      intro h
      exact hq (by rw [h]; exact List.mem_cons_self _ _)
    have hq' : ¬ '"' ∈ t := by
      intro h
      exact hq (List.mem_cons_of_mem _ h)
    rw [List.cons_append, parseLoop_cons, if_neg hc]
    rw [if_neg (by simp : ¬ (c = ',' ∧ true = false))]
    rw [ih rest (cur ++ [c]) hq', List.append_assoc, List.singleton_append]

/-- C4: parseCSVLine treats a quote character as toggling an inside-quoted-
field mode, so that a comma inside a quoted field is not a field separator (a
fully quoted field containing commas parses as a single field), the quote
characters themselves are stripped from the output fields, and every extracted
field is trimmed of leading and trailing whitespace. -/
theorem C4_parseCSVLine_quotes (xs line f : List Char)
    (hq : ¬ '"' ∈ xs) (hf : f ∈ parseCSVLine line) :
    parseCSVLine ('"' :: (xs ++ ['"'])) = [trimChars xs]
    ∧ ¬ '"' ∈ f
    ∧ trimChars f = f := by
  refine ⟨?_, ?_, ?_⟩
  · show parseLoop ('"' :: (xs ++ ['"'])) [] false = [trimChars xs]
    rw [parseLoop_cons, if_pos rfl]
    show parseLoop (xs ++ ['"']) [] true = [trimChars xs]
    rw [parseLoop_inQuotes xs ['"'] [] hq, List.nil_append]
    rw [parseLoop_cons, if_pos rfl]
    show parseLoop [] xs false = [trimChars xs]
    exact parseLoop_nil xs false
  · exact parseLoop_no_quote f line [] false (by simp) hf
  · exact parseLoop_trimmed f line [] false hf

/-- Witness for C4 at a concrete quoted field and a concrete line. -/
theorem C4_parseCSVLine_quotes_witness :
    parseCSVLine ('"' :: ("a,b".data ++ ['"'])) = [trimChars "a,b".data]
    ∧ ¬ '"' ∈ ['x']
    ∧ trimChars ['x'] = ['x'] :=
  C4_parseCSVLine_quotes "a,b".data " x ,y".data ['x'] (by decide) (by decide)

/-- C10: parseCSVLine terminates on every input (it is a total structurally
recursive function), always returning at least one field, and an unmatched
opening quote simply puts the remainder of the line inside one quoted field
rather than causing an error. -/
theorem C10_parseCSVLine_total (line xs : List Char) (hq : ¬ '"' ∈ xs) :
    1 ≤ (parseCSVLine line).length
    ∧ parseCSVLine ('"' :: xs) = [trimChars xs] := by
  constructor
  · exact parseLoop_length line [] false
  · show parseLoop ('"' :: xs) [] false = [trimChars xs]
    rw [parseLoop_cons, if_pos rfl]
    show parseLoop xs [] true = [trimChars xs]
    have h := parseLoop_inQuotes xs [] [] hq
    rw [List.append_nil, List.nil_append] at h
    rw [h]
    exact parseLoop_nil xs true

/-- Witness for C10 at a concrete line and a concrete unmatched-quote tail. -/
theorem C10_parseCSVLine_total_witness :
    1 ≤ (parseCSVLine "a,b".data).length
    ∧ parseCSVLine ('"' :: "c,d".data) = [trimChars "c,d".data] :=
  C10_parseCSVLine_total "a,b".data "c,d".data (by decide)

/-- C3: parsing a raw blob splits it into lines, discards blank and
whitespace-only lines, skips the first retained line as the header, produces
exactly one record (built by the positional extraction mkItem from the parsed
fields) for each subsequent line with at least 11 parsed fields, and silently
excludes every line with fewer than 11 parsed fields without affecting any
other line: removing such a line leaves the record sequence unchanged. -/
theorem C3_parse_pipeline (csvText : String) (pre post : List String) (bad l : String)
    (hbad : (parseCSVLineStr bad).length < 11)
    (hl : 11 ≤ (parseCSVLineStr l).length) :
    parseRecords csvText = ((linesOf csvText).drop 1).filterMap lineToRecord
    ∧ (∀ s ∈ linesOf csvText, (trimChars s.data).isEmpty = false)
    ∧ (pre ++ bad :: post).filterMap lineToRecord = (pre ++ post).filterMap lineToRecord
    ∧ [l].filterMap lineToRecord = [mkItem (parseCSVLineStr l)]
    ∧ ∀ xs ys : List String,
        (xs ++ ys).filterMap lineToRecord
          = xs.filterMap lineToRecord ++ ys.filterMap lineToRecord := by
  have hbnone : lineToRecord bad = none := by
    unfold lineToRecord
    rw [if_neg (Nat.not_le.mpr hbad)]
  have hlsome : lineToRecord l = some (mkItem (parseCSVLineStr l)) := by
    unfold lineToRecord
    rw [if_pos hl]
  refine ⟨rfl, ?_, ?_, ?_, ?_⟩
  · intro s hs
    have := List.of_mem_filter hs
    simpa using this
  · rw [List.filterMap_append, List.filterMap_append,
      List.filterMap_cons_none hbnone]
  · rw [List.filterMap_cons_some hlsome]
    rfl
  · intro xs ys
    exact List.filterMap_append xs ys lineToRecord

/-- Witness for C3 at concrete lines: a 3-field line is dropped without
affecting its neighbours, and an 11-field line yields exactly one record. -/
theorem C3_parse_pipeline_witness :
    (["x,y"] ++ "a,b,c" :: ["q"]).filterMap lineToRecord
        = (["x,y"] ++ ["q"]).filterMap lineToRecord
    ∧ ["1,2,3,4,5,6,7,8,9,10,11"].filterMap lineToRecord
        = [mkItem (parseCSVLineStr "1,2,3,4,5,6,7,8,9,10,11")] :=
  ⟨(C3_parse_pipeline "h" ["x,y"] ["q"] "a,b,c" "1,2,3,4,5,6,7,8,9,10,11"
      (by decide) (by decide)).2.2.1,
   (C3_parse_pipeline "h" ["x,y"] ["q"] "a,b,c" "1,2,3,4,5,6,7,8,9,10,11"
      (by decide) (by decide)).2.2.2.1⟩

/-- C5 counterexample: in a parsed record built from a row whose country, isp
and domain columns are empty, those attributes are the empty string, not the
claimed default "-" (only usageType, asn and city default to "-"). -/
theorem C5_counterexample :
    (parseRecords
        "IP,Country,ISP,Domain,Score,Reports,Last,Skip,Activity,Count,Action\n1.2.3.4,,,,80,5,2024-01-01,x,scan,3,blocked").map
        (fun r => (r.Country, r.ISP, r.Domain, r.UsageType, r.ASN, r.City))
      = [("", "", "", "-", "-", "-")]
    ∧ ("" : String) ≠ "-" := by
  constructor
  · rfl
  · decide

/-- C5 amended: for every parsed record, usageType, asn and city default to
"-" when the corresponding column value is absent (missing or empty), while
country, isp and domain default to the empty string. -/
theorem C5_amended_defaults (values : List String)
    (h1 : values.getD 1 "" = "") (h2 : values.getD 2 "" = "")
    (h3 : values.getD 3 "" = "") (h11 : values.getD 11 "" = "")
    (h12 : values.getD 12 "" = "") (h13 : values.getD 13 "" = "") :
    (mkItem values).Country = ""
    ∧ (mkItem values).ISP = ""
    ∧ (mkItem values).Domain = ""
    ∧ (mkItem values).UsageType = "-"
    ∧ (mkItem values).ASN = "-"
    ∧ (mkItem values).City = "-" := by
  simp only [mkItem]
  rw [h1, h2, h3, h11, h12, h13]
  simp [strOr]

/-- Witness for the amended C5 at a concrete 11-column row with empty
descriptive columns. -/
theorem C5_amended_defaults_witness :
    (mkItem ["1.2.3.4", "", "", "", "80", "5", "d", "x", "a", "3", "blocked"]).Country = ""
    ∧ (mkItem ["1.2.3.4", "", "", "", "80", "5", "d", "x", "a", "3", "blocked"]).ISP = ""
    ∧ (mkItem ["1.2.3.4", "", "", "", "80", "5", "d", "x", "a", "3", "blocked"]).Domain = ""
    ∧ (mkItem ["1.2.3.4", "", "", "", "80", "5", "d", "x", "a", "3", "blocked"]).UsageType = "-"
    ∧ (mkItem ["1.2.3.4", "", "", "", "80", "5", "d", "x", "a", "3", "blocked"]).ASN = "-"
    ∧ (mkItem ["1.2.3.4", "", "", "", "80", "5", "d", "x", "a", "3", "blocked"]).City = "-" :=
  C5_amended_defaults ["1.2.3.4", "", "", "", "80", "5", "d", "x", "a", "3", "blocked"]
    rfl rfl rfl rfl rfl rfl

/-- C6 counterexample: a parsed record built from a row whose totalReports and
count columns hold negative numerals has negative TotalReports and Count, so
these fields are not always non-negative. -/
theorem C6_counterexample :
    (parseRecords "h1,h2\n1.2.3.4,ID,isp,dom,80,-5,2024,x,scan,-2,blocked").map
        (fun r => (r.TotalReports, r.Count)) = [(-5, -2)]
    ∧ ¬ (0 ≤ (-5 : Int)) := by
  constructor
  · rfl
  · decide

/-- C6 amended: the numeric fields abuseConfidenceScore, totalReports and
count are obtained by the lenient integer parse, which yields the default 0 on
non-numeric input (input with no leading integer numeral) instead of
signaling an error; totalReports and count are integers that may be negative
when the feed supplies a negative numeral. -/
theorem C6_amended_lenient (values : List String)
    (h4 : parseIntJS (values.getD 4 "") = none)
    (h5 : parseIntJS (values.getD 5 "") = none)
    (h9 : parseIntJS (values.getD 9 "") = none) :
    (mkItem values).AbuseConfidenceScore = 0
    ∧ (mkItem values).TotalReports = 0
    ∧ (mkItem values).Count = 0
    ∧ (mkItem values).TotalReports = jsOrZero (parseIntJS (values.getD 5 ""))
    ∧ (mkItem values).Count = jsOrZero (parseIntJS (values.getD 9 "")) := by
  simp only [mkItem]
  rw [h4, h5, h9]
  simp [jsOrZero]

/-- Witness for the amended C6 at a concrete row with non-numeric numeric
columns. -/
theorem C6_amended_lenient_witness :
    (mkItem (List.replicate 11 "abc")).AbuseConfidenceScore = 0
    ∧ (mkItem (List.replicate 11 "abc")).TotalReports = 0
    ∧ (mkItem (List.replicate 11 "abc")).Count = 0
    ∧ (mkItem (List.replicate 11 "abc")).TotalReports
        = jsOrZero (parseIntJS ((List.replicate 11 "abc").getD 5 ""))
    ∧ (mkItem (List.replicate 11 "abc")).Count
        = jsOrZero (parseIntJS ((List.replicate 11 "abc").getD 9 "")) :=
  C6_amended_lenient (List.replicate 11 "abc") (by decide) (by decide) (by decide)

/-- A successful Boolean search match yields the disjunction of the three
substring conditions. -/
theorem searchMatch_cases (q : String) (item : IPData) (h : searchMatch q item = true) :
    containsStr item.IP q = true
    ∨ containsStr (jsToLower item.ISP) (jsToLower q) = true
    ∨ containsStr (jsToLower item.Domain) (jsToLower q) = true := by
  simpa [searchMatch, Bool.or_eq_true, or_assoc] using h

/-- C1: for every snapshot and filter state, the filtered record list is a
subsequence of the snapshot, every element of it satisfies both the search
predicate (search text empty, or a case-sensitive substring of the IP, or a
case-insensitive substring of the ISP or of the domain) and the category
predicate (category "all", or the action case-insensitively equal to the
category token), and the aggregates are computed from the unfiltered snapshot,
with the same values for every filter state. -/
theorem C1_view_projector (data : List IPData) (q : String) (f : FilterCat) :
    ((project data q f).1).Sublist data
    ∧ (∀ item ∈ (project data q f).1,
        (q = "" ∨ containsStr item.IP q = true
          ∨ containsStr (jsToLower item.ISP) (jsToLower q) = true
          ∨ containsStr (jsToLower item.Domain) (jsToLower q) = true)
        ∧ (f = FilterCat.all ∨ jsToLower item.Action = catToken f))
    ∧ (∀ q' f', (project data q f).2 = (project data q' f').2) := by
  refine ⟨?_, ?_, fun q' f' => rfl⟩
  · show (if f = FilterCat.all
        then (if q = "" then data else data.filter (fun item => searchMatch q item))
        else (if q = "" then data else data.filter (fun item => searchMatch q item)).filter
          (fun item => jsToLower item.Action == catToken f)).Sublist data
    by_cases hf : f = FilterCat.all
    · rw [if_pos hf]
      by_cases hq : q = ""
      · rw [if_pos hq]
      · rw [if_neg hq]
        exact List.filter_sublist _
    · rw [if_neg hf]
      refine (List.filter_sublist _).trans ?_
      by_cases hq : q = ""
      · rw [if_pos hq]
      · rw [if_neg hq]
        exact List.filter_sublist _
  · intro item hmem
    have hmem' : item ∈ (if f = FilterCat.all
        then (if q = "" then data else data.filter (fun item => searchMatch q item))
        else (if q = "" then data else data.filter (fun item => searchMatch q item)).filter
          (fun item => jsToLower item.Action == catToken f)) := hmem
    have hsearch : ∀ x : IPData,
        x ∈ (if q = "" then data else data.filter (fun item => searchMatch q item)) →
        q = "" ∨ containsStr x.IP q = true
          ∨ containsStr (jsToLower x.ISP) (jsToLower q) = true
          ∨ containsStr (jsToLower x.Domain) (jsToLower q) = true := by
      intro x hx
      by_cases hq : q = ""
      · exact Or.inl hq
      · rw [if_neg hq] at hx
        exact Or.inr (searchMatch_cases q x (List.mem_filter.mp hx).2)
    by_cases hf : f = FilterCat.all
    · rw [if_pos hf] at hmem'
      exact ⟨hsearch item hmem', Or.inl hf⟩
    · rw [if_neg hf] at hmem'
      obtain ⟨hin, hcat⟩ := List.mem_filter.mp hmem'
      exact ⟨hsearch item hin, Or.inr (eq_of_beq hcat)⟩

/-- Witness for C1: the sample record retained under the empty filter state
satisfies both predicates. -/
theorem C1_view_projector_witness :
    (("" : String) = "" ∨ containsStr sampleRec.IP "" = true
      ∨ containsStr (jsToLower sampleRec.ISP) (jsToLower "") = true
      ∨ containsStr (jsToLower sampleRec.Domain) (jsToLower "") = true)
    ∧ (FilterCat.all = FilterCat.all
        ∨ jsToLower sampleRec.Action = catToken FilterCat.all) :=
  (C1_view_projector [sampleRec] "" FilterCat.all).2.1 sampleRec (by decide)

/-- C2: a record with abuse confidence score exactly 75 counts toward the
highRisk aggregate (which uses the inclusive threshold 75) but is not in the
export-eligible set highRiskIPs (which requires a score strictly greater than
75); a record with score 76 both counts toward highRisk and is
export-eligible. -/
theorem C2_threshold_asymmetry (r : IPData) (rest : List IPData) :
    (r.AbuseConfidenceScore = 75 →
        (stats (r :: rest)).highRisk = (stats rest).highRisk + 1
        ∧ ¬ r ∈ highRiskIPs (r :: rest))
    ∧ (r.AbuseConfidenceScore = 76 →
        (stats (r :: rest)).highRisk = (stats rest).highRisk + 1
        ∧ r ∈ highRiskIPs (r :: rest)) := by
  constructor
  · intro h75
    constructor
    · have hc : decide (75 ≤ r.AbuseConfidenceScore) = true := by
        rw [h75]
        decide
      simp [stats, List.filter_cons, hc]
    · intro hmem
      have hp := (List.mem_filter.mp hmem).2
      rw [h75] at hp
      exact absurd hp (by decide)
  · intro h76
    constructor
    · have hc : decide (75 ≤ r.AbuseConfidenceScore) = true := by
        rw [h76]
        decide
      simp [stats, List.filter_cons, hc]
    · refine List.mem_filter.mpr ⟨List.mem_cons_self r rest, ?_⟩
      rw [h76]
      decide

/-- Witness for C2 at concrete records with scores 75 and 76. -/
theorem C2_threshold_asymmetry_witness :
    ((stats [rec75]).highRisk = (stats ([] : List IPData)).highRisk + 1
      ∧ ¬ rec75 ∈ highRiskIPs [rec75])
    ∧ ((stats [rec76]).highRisk = (stats ([] : List IPData)).highRisk + 1
      ∧ rec76 ∈ highRiskIPs [rec76]) :=
  ⟨(C2_threshold_asymmetry rec75 []).1 rfl, (C2_threshold_asymmetry rec76 []).2 rfl⟩

/-- C7: when a fetch-and-parse cycle fails, loadData leaves the published
snapshot (data and filteredData) and the last-updated timestamp unchanged, and
updates only the error state, to the fixed user-facing message. -/
theorem C7_failure_keeps_snapshot (s : DashState) (showLoading : Bool) (e : String)
    (now : Nat) :
    (loadData s showLoading (Except.error e) now).data = s.data
    ∧ (loadData s showLoading (Except.error e) now).filteredData = s.filteredData
    ∧ (loadData s showLoading (Except.error e) now).lastUpdated = s.lastUpdated
    ∧ (loadData s showLoading (Except.error e) now).error
        = some "Failed to load data from Google Sheet" :=
  ⟨rfl, rfl, rfl, rfl⟩

/-- Unfolding equation of fetchLoop on a nonempty strategy list. -/
theorem fetchLoop_cons (r : StrategyRes) (rest : List StrategyRes) (le : Option String) :
    fetchLoop (r :: rest) le =
      match attempt r with
      | .ok d => .ok d
      | .error e => fetchLoop rest (some e) := rfl

/-- When every strategy in the list fails with the listed errors, the loop
ends with the most recent error, falling back to the accumulator (and to the
generic message when that is empty too). -/
theorem fetchLoop_all_fail (rs : List StrategyRes) :
    ∀ es : List String, rs.map attempt = es.map Except.error →
      ∀ le : Option String,
        fetchLoop rs le = Except.error (es.getLastD (match le with
          | none => "Failed to fetch data"
          | some e => e)) := by
  induction rs with
  | nil =>
    intro es hes le
    have hnil : es = [] := by
      cases es with
      | nil => rfl
      | cons a t => simp at hes
    subst hnil
    cases le with
    | none => rfl
    | some e => rfl
  | cons r t ih =>
    intro es hes le
    cases es with
    | nil => simp at hes
    | cons e es' =>
      simp only [List.map_cons, List.cons.injEq] at hes
      rw [fetchLoop_cons, hes.1]
      show fetchLoop t (some e) = _
      rw [ih es' hes.2 (some e), List.getLastD_cons]

/-- When every strategy before some strategy fails and that strategy succeeds
with records d, the loop returns d no matter what follows. -/
theorem fetchLoop_first_ok (rs1 : List StrategyRes) (r : StrategyRes)
    (rs2 : List StrategyRes) (d : List IPData) (h2 : attempt r = Except.ok d) :
    ∀ es : List String, rs1.map attempt = es.map Except.error →
      ∀ le, fetchLoop (rs1 ++ r :: rs2) le = Except.ok d := by
  induction rs1 with
  | nil =>
    intro es hes le
    rw [List.nil_append, fetchLoop_cons, h2]
  | cons x t ih =>
    intro es hes le
    cases es with
    | nil => simp at hes
    | cons e es' =>
      simp only [List.map_cons, List.cons.injEq] at hes
      rw [List.cons_append, fetchLoop_cons, hes.1]
      show fetchLoop (t ++ r :: rs2) (some e) = _
      exact ih es' hes.2 (some e)

/-- C8 counterexample: the first transport strategy yields a non-error (200)
response whose body has at least 10 characters, yet the fetcher does not stop
there with that body: because the body has fewer than 2 non-blank lines the
strategy is treated as failed, the next strategy is attempted, and the cycle
throws the later strategy's error. -/
theorem C8_counterexample :
    fetchIPData [StrategyRes.response 200 "aaaaaaaaaaaa", StrategyRes.netError "network down"]
      = Except.error "network down"
    ∧ (200 ≤ 200 ∧ 200 < 300)
    ∧ 10 ≤ String.length "aaaaaaaaaaaa" := by
  refine ⟨rfl, by decide, by decide⟩

/-- C8 amended: the fetcher tries the transport strategies in their fixed
order, each at most once per fetch cycle with no retry within a strategy,
stopping at the first strategy whose attempt succeeds, i.e. that yields a
non-error response with a body of at least 10 characters that also splits into
at least 2 non-blank lines; if every strategy fails (including failure by an
implausible or insufficient body), the fetcher throws the most recent
underlying error, or a generic fallback error if none was ever set. -/
theorem C8_amended_fetch (rs1 rs2 : List StrategyRes) (r : StrategyRes)
    (d : List IPData) (es : List String)
    (h1 : rs1.map attempt = es.map Except.error)
    (h2 : attempt r = Except.ok d) :
    fetchIPData (rs1 ++ r :: rs2) = Except.ok d
    ∧ fetchIPData rs1 = Except.error (es.getLastD "Failed to fetch data") :=
  ⟨fetchLoop_first_ok rs1 r rs2 d h2 es h1 none,
   fetchLoop_all_fail rs1 es h1 none⟩

/-- Witness for the amended C8: strategy one returns HTTP 500, strategy two a
plausible CSV body; the cycle succeeds with the second body's records, and a
cycle consisting of the failures alone throws the most recent error. -/
theorem C8_amended_fetch_witness :
    fetchIPData [StrategyRes.response 500 "server error body",
        StrategyRes.response 200 "h1,h2\n1.2.3.4,ID,isp,dom,80,5,2024,x,scan,3,blocked"]
      = Except.ok (parseRecords "h1,h2\n1.2.3.4,ID,isp,dom,80,5,2024,x,scan,3,blocked")
    ∧ fetchIPData [StrategyRes.response 500 "server error body"]
      = Except.error (["HTTP error! status: 500"].getLastD "Failed to fetch data") :=
  C8_amended_fetch [StrategyRes.response 500 "server error body"] []
    (StrategyRes.response 200 "h1,h2\n1.2.3.4,ID,isp,dom,80,5,2024,x,scan,3,blocked")
    (parseRecords "h1,h2\n1.2.3.4,ID,isp,dom,80,5,2024,x,scan,3,blocked")
    ["HTTP error! status: 500"] rfl rfl

/-- C9 counterexample: a header-only blob shorter than 10 characters (here
"a,b,c", a single non-blank line) fails the short-body check before the
line-count check is ever reached, so the fetch cycle fails with the
short-body transport-failure message "Empty or invalid response", not with
the insufficient-data classification the claim promises for every
header-only blob. -/
theorem C9_counterexample :
    (linesOf "a,b,c").length = 1
    ∧ fetchIPData (List.replicate 3 (StrategyRes.response 200 "a,b,c"))
        = Except.error "Empty or invalid response"
    ∧ "Empty or invalid response" ≠ "Not enough data lines" := by
  refine ⟨rfl, rfl, by decide⟩

/-- C9 amended: for every raw text blob of at least 10 characters that
passes the body-length check but contains only
a header line (fewer than 2 non-blank lines), every strategy returning that
blob fails with the insufficient-data error, so the whole fetch cycle fails
with the message "Not enough data lines", which is distinct from every
transport-failure message (the HTTP status errors, the short-body error) and
from the generic fallback. -/
theorem C9_header_only (csvText : String) (n : Nat)
    (hlen : 10 ≤ csvText.length)
    (hlines : (linesOf csvText).length < 2)
    (hn : 1 ≤ n) :
    fetchIPData (List.replicate n (StrategyRes.response 200 csvText))
      = Except.error "Not enough data lines"
    ∧ attempt (StrategyRes.response 200 csvText) = Except.error "Not enough data lines"
    ∧ "Not enough data lines" ≠ "Empty or invalid response"
    ∧ "Not enough data lines" ≠ "Failed to fetch data"
    ∧ ∀ st : Nat, "Not enough data lines" ≠ "HTTP error! status: " ++ toString st := by
  have hatt : attempt (StrategyRes.response 200 csvText)
      = Except.error "Not enough data lines" := by
    simp only [attempt]
    rw [if_neg (by decide), if_neg (Nat.not_lt.mpr hlen), if_pos hlines]
  have hrep : ∀ m : Nat, ∀ le : Option String,
      fetchLoop (List.replicate (m + 1) (StrategyRes.response 200 csvText)) le
        = Except.error "Not enough data lines" := by
    intro m
    induction m with
    | zero =>
      intro le
      show fetchLoop [StrategyRes.response 200 csvText] le = _
      rw [fetchLoop_cons, hatt]
      rfl
    | succ k ih =>
      intro le
      rw [List.replicate_succ, fetchLoop_cons, hatt]
      exact ih (some "Not enough data lines")
  refine ⟨?_, hatt, by decide, by decide, ?_⟩
  · cases n with
    | zero => exact absurd hn (by decide)
    | succ m => exact hrep m none
  · intro st h
    have hhead : ("Not enough data lines" : String).data.head?
        = ("HTTP error! status: " ++ toString st : String).data.head? := by rw [h]
    rw [show ("Not enough data lines" : String).data.head? = some 'N' from rfl] at hhead
    rw [show ("HTTP error! status: " ++ toString st : String).data.head?
        = some 'H' from rfl] at hhead
    exact absurd hhead (by decide)

/-- Witness for C9 at a concrete header-only blob tried by all three
strategies. -/
theorem C9_header_only_witness :
    fetchIPData (List.replicate 3 (StrategyRes.response 200 "IP,Country,ISP"))
      = Except.error "Not enough data lines" :=
  (C9_header_only "IP,Country,ISP" 3 (by decide) (by decide) (by decide)).1
